import Mathlib

/-! # Verification of the 2D occupancy-map to 3D mesh converter

Shallow embedding of map_to_3d.py (class Map3DConverter). Intensities,
thresholds and world coordinates are modelled as rationals; grids as
functions from row/column indices to values together with explicit
row/column counts. Image decoding (cv2.imread plus the division by 255)
and file output are external collaborators, so the embedded pipeline
starts from a grid of normalized intensities and a metadata record.
The trimesh library calls (remove_duplicate_faces, fix_normals, export)
are external post-processing; the claims below are about the geometry as
emitted by the converter itself, before that cleanup.
-/

namespace MapTo3D

/-- A 3D point/vector with rational coordinates. -/
structure Vec3 where
  x : ℚ
  y : ℚ
  z : ℚ
deriving DecidableEq, Repr

/-- A triangle, given by three vertex indices. -/
abbrev Tri := Nat × Nat × Nat

/-- An indexed triangle mesh: a vertex list plus a triangle list. -/
structure Mesh where
  vertices : List Vec3
  faces : List Tri
deriving DecidableEq, Repr

/-- Per-cell classification step of load_and_process_map (map_to_3d.py,
lines 53-62): the occupancy value starts at 0 (free), then the three masked
assignments are applied in program order — occupied-rule, free-rule,
unknown-band-rule.  true = occupied (1), false = free (0). -/
def classifyCell (occupied_thresh free_thresh v : ℚ) : Bool :=
  let g0 : Bool := false
  let g1 : Bool := if v ≤ 1 - occupied_thresh then true else g0
  let g2 : Bool := if 1 - free_thresh ≤ v then false else g1
  if 1 - occupied_thresh < v ∧ v < 1 - free_thresh then true else g2

/-- load_and_process_map: the normalized image (values in [0,1]) becomes a
binary occupancy grid by applying classifyCell pointwise.  img already holds
the normalized intensities (the external loader divides pixels by 255). -/
def load_and_process_map (occupied_thresh free_thresh : ℚ)
    (img : Nat → Nat → ℚ) : Nat → Nat → Bool :=
  fun r c => classifyCell occupied_thresh free_thresh (img r c)

/-- Occupancy lookup with out-of-grid cells reading as free, matching
scipy.ndimage.binary_erosion's default border_value = 0. -/
def occAtI (g : Nat → Nat → Bool) (rows cols : Nat) (r c : Int) : Bool :=
  if 0 ≤ r ∧ r < (rows : Int) ∧ 0 ≤ c ∧ c < (cols : Int) then
    g r.toNat c.toNat
  else
    false

/-- binary_erosion with the full 3x3 structuring element np.ones((3,3))
(map_to_3d.py, line 72): a cell survives erosion iff its whole 3x3
neighborhood (out-of-grid cells counting as free) is occupied. -/
def binary_erosion3 (g : Nat → Nat → Bool) (rows cols r c : Nat) : Bool :=
  ([-1, 0, 1] : List Int).all fun dr =>
    ([-1, 0, 1] : List Int).all fun dc =>
      occAtI g rows cols ((r : Int) + dr) ((c : Int) + dc)

/-- wall_edges (line 73): occupied and not surviving erosion. -/
def wall_edges (g : Nat → Nat → Bool) (rows cols r c : Nat) : Bool :=
  g r c && !binary_erosion3 g rows cols r c

/-- np.where(wall_edges) (line 82): the boundary cells in row-major order. -/
def wall_pixels (g : Nat → Nat → Bool) (rows cols : Nat) : List (Nat × Nat) :=
  (List.range rows).flatMap fun r =>
    (List.range cols).filterMap fun c =>
      if wall_edges g rows cols r c then some (r, c) else none

/-- The 8 cube vertices emitted for one boundary pixel (lines 89-111).
world_y uses integer arithmetic height - row - 1 exactly as the Python
expression; cube_size = resolution * 0.9. -/
def cube_vertices (ox oy res h : ℚ) (rows row col : Nat) : List Vec3 :=
  let world_x : ℚ := ox + (col : ℚ) * res
  let world_y : ℚ := oy + (((rows : Int) - (row : Int) - 1 : Int) : ℚ) * res
  let cube_size : ℚ := res * (9 / 10)
  let x0 := world_x
  let x1 := world_x + cube_size
  let y0 := world_y
  let y1 := world_y + cube_size
  [⟨x0, y0, 0⟩, ⟨x1, y0, 0⟩, ⟨x1, y1, 0⟩, ⟨x0, y1, 0⟩,
   ⟨x0, y0, h⟩, ⟨x1, y0, h⟩, ⟨x1, y1, h⟩, ⟨x0, y1, h⟩]

/-- The 12 cube faces for one boundary pixel (lines 115-136), with base_idx
the running vertex count. -/
def cube_faces (base : Nat) : List Tri :=
  [(base + 0, base + 1, base + 2), (base + 0, base + 2, base + 3),
   (base + 4, base + 6, base + 5), (base + 4, base + 7, base + 6),
   (base + 0, base + 4, base + 5), (base + 0, base + 5, base + 1),
   (base + 3, base + 2, base + 6), (base + 3, base + 6, base + 7),
   (base + 0, base + 3, base + 7), (base + 0, base + 7, base + 4),
   (base + 1, base + 5, base + 6), (base + 1, base + 6, base + 2)]

/-- The per-pixel loop of create_wall_mesh (lines 85-139): accumulates the
cube vertices and faces cell by cell, carrying the running vertex count. -/
def wall_loop (ox oy res h : ℚ) (rows : Nat) :
    List (Nat × Nat) → Nat → List Vec3 × List Tri
  | [], _ => ([], [])
  | (row, col) :: rest, vcount =>
    let tail := wall_loop ox oy res h rows rest (vcount + 8)
    (cube_vertices ox oy res h rows row col ++ tail.1,
     cube_faces vcount ++ tail.2)

/-- create_wall_mesh (lines 66-154): builds the wall geometry over all
boundary pixels; when no wall pixel exists it returns None (modelled as
Option.none) rather than raising an error.  The trimesh cleanup
(remove_duplicate_faces, fix_normals) is external and not modelled. -/
def create_wall_mesh (ox oy res h : ℚ) (g : Nat → Nat → Bool)
    (rows cols : Nat) : Option Mesh :=
  let cells := wall_pixels g rows cols
  let vf := wall_loop ox oy res h rows cells 0
  if vf.1.isEmpty then none else some ⟨vf.1, vf.2⟩

/-- create_floor_mesh (lines 156-181): one quad at Z = 0 spanning the whole
map extent, split into two triangles. -/
def create_floor_mesh (ox oy res : ℚ) (rows cols : Nat) : Mesh :=
  let x0 := ox
  let y0 := oy
  let x1 := ox + (cols : ℚ) * res
  let y1 := oy + (rows : ℚ) * res
  ⟨[⟨x0, y0, 0⟩, ⟨x1, y0, 0⟩, ⟨x1, y1, 0⟩, ⟨x0, y1, 0⟩],
   [(0, 1, 2), (0, 2, 3)]⟩

/-- Shift a triangle's vertex indices by an offset. -/
def offsetTri (k : Nat) (t : Tri) : Tri :=
  (t.1 + k, t.2.1 + k, t.2.2 + k)

/-- Concatenation of two indexed meshes (trimesh's mesh + mesh): vertex lists
are concatenated and the second mesh's triangle indices are offset by the
first mesh's vertex count. -/
def mesh_concat (a b : Mesh) : Mesh :=
  ⟨a.vertices ++ b.vertices,
   a.faces ++ b.faces.map (offsetTri a.vertices.length)⟩

/-- convert_to_3d (lines 183-214), up to the external export calls:
classify, build the wall mesh, build the floor mesh, and combine (the floor
alone when there are no wall pixels). -/
def convert_to_3d (res ox oy occupied_thresh free_thresh h : ℚ)
    (img : Nat → Nat → ℚ) (rows cols : Nat) : Mesh :=
  let occ := load_and_process_map occupied_thresh free_thresh img
  let wall := create_wall_mesh ox oy res h occ rows cols
  let floor := create_floor_mesh ox oy res rows cols
  match wall with
  | some w => mesh_concat w floor
  | none => floor

/-- Componentwise difference of two vectors. -/
def vsub (a b : Vec3) : Vec3 :=
  ⟨a.x - b.x, a.y - b.y, a.z - b.z⟩

/-- Cross product of two vectors. -/
def cross (a b : Vec3) : Vec3 :=
  ⟨a.y * b.z - a.z * b.y, a.z * b.x - a.x * b.z, a.x * b.y - a.y * b.x⟩

/-- The (unnormalized) normal of a triangle under the right-hand winding
convention: cross(p1 - p0, p2 - p0). -/
def triNormal (vs : List Vec3) (t : Tri) : Vec3 :=
  let p0 := vs.getD t.1 ⟨0, 0, 0⟩
  let p1 := vs.getD t.2.1 ⟨0, 0, 0⟩
  let p2 := vs.getD t.2.2 ⟨0, 0, 0⟩
  cross (vsub p1 p0) (vsub p2 p0)

/-! ## Helper lemmas -/

/-- Net effect of the three sequential masked assignments: a cell ends up
free exactly when the free rule fires, occupied in every other case. -/
theorem classifyCell_char (ot ft v : ℚ) :
    classifyCell ot ft v = if 1 - ft ≤ v then false else true := by
  simp only [classifyCell]
  split_ifs with h1 h2 h3 h4 <;> try rfl
  · exact absurd h2 (not_le.mpr h1.2)
  · exact absurd ⟨not_le.mp h4, not_le.mp h3⟩ h1

/-! ## Claims about the Grid Classifier -/

unseal Rat.mul Rat.inv Rat.sub Rat.add in
/-- C1: for thresholds with a nonempty unknown band (1 - occupied_thresh <
1 - free_thresh, as with the defaults 0.45/0.196), a cell classifies
Occupied when v ≤ 1 - occupied_thresh, Free when v ≥ 1 - free_thresh, and
Occupied in the unknown band; with the default thresholds, v = 0.55 is
Occupied, v = 0.804 is Free and v = 0.6 is Occupied. -/
theorem C1_grid_classifier (ot ft v : ℚ) (hband : 1 - ot < 1 - ft) :
    (v ≤ 1 - ot → classifyCell ot ft v = true) ∧
    (1 - ft ≤ v → classifyCell ot ft v = false) ∧
    (1 - ot < v → v < 1 - ft → classifyCell ot ft v = true) ∧
    classifyCell (45/100) (196/1000) (55/100) = true ∧
    classifyCell (45/100) (196/1000) (804/1000) = false ∧
    classifyCell (45/100) (196/1000) (6/10) = true := by
  refine ⟨?_, ?_, ?_, by decide, by decide, by decide⟩
  · intro h
    rw [classifyCell_char, if_neg (not_le.mpr (lt_of_le_of_lt h hband))]
  · intro h
    rw [classifyCell_char, if_pos h]
  · intro h1 h2
    rw [classifyCell_char, if_neg (not_le.mpr h2)]

/-- Witness for C1 with the default thresholds and v = 0.55. -/
theorem C1_grid_classifier_witness :
    (1 - (45/100 : ℚ) < 1 - 196/1000) ∧
    classifyCell (45/100) (196/1000) (55/100) = true :=
  ⟨by norm_num,
   (C1_grid_classifier (45/100) (196/1000) (55/100) (by norm_num)).2.2.2.1⟩

/-- C7: when a cell's intensity satisfies both the occupied rule and the
free rule (overlapping or inverted thresholds), the final classification is
Free — the free assignment overrides the earlier occupied assignment, and
the unknown-band mask cannot fire. -/
theorem C7_free_wins_on_overlap (ot ft v : ℚ)
    (h1 : v ≤ 1 - ot) (h2 : 1 - ft ≤ v) :
    classifyCell ot ft v = false := by
  rw [classifyCell_char, if_pos h2]

/-- Witness for C7 at ot = ft = 0.9, v = 0.1, where both rules fire. -/
theorem C7_free_wins_on_overlap_witness :
    ((1/10 : ℚ) ≤ 1 - 9/10) ∧ (1 - (9/10 : ℚ) ≤ 1/10) ∧
    classifyCell (9/10) (9/10) (1/10) = false :=
  ⟨by norm_num, by norm_num,
   C7_free_wins_on_overlap (9/10) (9/10) (1/10) (by norm_num) (by norm_num)⟩

/-- C10: occupied_thresh has no influence on the final binary grid — the
result is Free exactly at cells with v ≥ 1 - free_thresh and Occupied at
all other cells, for any value of occupied_thresh. -/
theorem C10_occupied_thresh_irrelevant (ot ot' ft : ℚ) (img : Nat → Nat → ℚ) :
    load_and_process_map ot ft img = load_and_process_map ot' ft img ∧
    ∀ v : ℚ, (classifyCell ot ft v = false ↔ 1 - ft ≤ v) := by
  constructor
  · funext r c
    simp only [load_and_process_map, classifyCell_char]
  · intro v
    rw [classifyCell_char]
    split_ifs with h
    · simp [h]
    · simp [h]

/-! ## Claims about the Boundary Extractor -/

/-- A cell fails the 3x3 erosion test exactly when some cell of its 3x3
neighborhood (offsets bounded by 1 in each direction, out-of-grid reading
as free) is not occupied. -/
theorem binary_erosion3_eq_false_iff (g : Nat → Nat → Bool) (rows cols r c : Nat) :
    binary_erosion3 g rows cols r c = false ↔
      ∃ dr dc : Int, dr.natAbs ≤ 1 ∧ dc.natAbs ≤ 1 ∧
        occAtI g rows cols ((r : Int) + dr) ((c : Int) + dc) = false := by
  rw [binary_erosion3, List.all_eq_false]
  constructor
  · rintro ⟨dr, hdr, h⟩
    rw [Bool.not_eq_true, List.all_eq_false] at h
    obtain ⟨dc, hdc, h⟩ := h
    rw [Bool.not_eq_true] at h
    refine ⟨dr, dc, ?_, ?_, h⟩
    · simp only [List.mem_cons, List.not_mem_nil, or_false] at hdr
      rcases hdr with rfl | rfl | rfl <;> decide
    · simp only [List.mem_cons, List.not_mem_nil, or_false] at hdc
      rcases hdc with rfl | rfl | rfl <;> decide
  · rintro ⟨dr, dc, hdr, hdc, h⟩
    have hdr' : dr ∈ ([-1, 0, 1] : List Int) := by
      have : dr = -1 ∨ dr = 0 ∨ dr = 1 := by omega
      rcases this with rfl | rfl | rfl <;> decide
    have hdc' : dc ∈ ([-1, 0, 1] : List Int) := by
      have : dc = -1 ∨ dc = 0 ∨ dc = 1 := by omega
      rcases this with rfl | rfl | rfl <;> decide
    refine ⟨dr, hdr', ?_⟩
    rw [Bool.not_eq_true, List.all_eq_false]
    exact ⟨dc, hdc', by rw [Bool.not_eq_true]; exact h⟩

/-- C2: a cell is marked boundary exactly when it is occupied and some cell
of its 3x3 neighborhood (out-of-grid cells counting as free) is not
occupied, i.e. when it does not survive the full 3x3 erosion; hence every
boundary cell is occupied, every occupied cell on the grid border is a
boundary cell, and the 3x3 all-occupied grid has exactly 8 boundary cells. -/
theorem C2_boundary_extractor (g : Nat → Nat → Bool) (rows cols : Nat) :
    (∀ r c : Nat,
      (wall_edges g rows cols r c = true ↔
        g r c = true ∧ ∃ dr dc : Int, dr.natAbs ≤ 1 ∧ dc.natAbs ≤ 1 ∧
          occAtI g rows cols ((r : Int) + dr) ((c : Int) + dc) = false)) ∧
    (∀ r c : Nat, wall_edges g rows cols r c = true → g r c = true) ∧
    (∀ r c : Nat, r < rows → c < cols →
      (r = 0 ∨ r = rows - 1 ∨ c = 0 ∨ c = cols - 1) → g r c = true →
      wall_edges g rows cols r c = true) ∧
    (wall_pixels (fun _ _ => true) 3 3).length = 8 := by
  refine ⟨?_, ?_, ?_, by decide⟩
  · intro r c
    rw [wall_edges, Bool.and_eq_true, Bool.not_eq_true', binary_erosion3_eq_false_iff]
  · intro r c h
    rw [wall_edges, Bool.and_eq_true] at h
    exact h.1
  · intro r c hr hc hb hocc
    rw [wall_edges, hocc, Bool.true_and, Bool.not_eq_true', binary_erosion3_eq_false_iff]
    rcases hb with rfl | hb' | rfl | hb'
    · exact ⟨-1, 0, by decide, by decide, by rw [occAtI, if_neg (by omega)]⟩
    · exact ⟨1, 0, by decide, by decide, by rw [occAtI, if_neg (by omega)]⟩
    · exact ⟨0, -1, by decide, by decide, by rw [occAtI, if_neg (by omega)]⟩
    · exact ⟨0, 1, by decide, by decide, by rw [occAtI, if_neg (by omega)]⟩

/-- Witness for C2 on the 3x3 all-occupied grid: the corner cell (0,0) is a
boundary cell and the grid has exactly 8 boundary cells. -/
theorem C2_boundary_extractor_witness :
    wall_edges (fun _ _ => true) 3 3 0 0 = true ∧
    (wall_pixels (fun _ _ => true) 3 3).length = 8 :=
  ⟨(C2_boundary_extractor (fun _ _ => true) 3 3).2.2.1 0 0 (by decide) (by decide)
      (Or.inl rfl) rfl,
   (C2_boundary_extractor (fun _ _ => true) 3 3).2.2.2⟩

/-! ## Claims about the Wall Synthesizer -/

/-- C3: the cuboid for boundary cell (row, col) is placed at
world_x = ox + col * res and world_y = oy + (rows - row - 1) * res with
cube_size = 0.9 * res, its 8 vertices being exactly the corners of
[world_x, world_x + cube_size] x [world_y, world_y + cube_size] x [0, h]
in the source's order; in particular a boundary cell at (row, col) = (0, 0)
in a rows-row grid yields a cuboid whose y-range starts at
oy + (rows - 1) * res. -/
theorem C3_wall_placement (ox oy res h : ℚ) (rows row col : Nat)
    (hres : 0 < res) :
    (cube_vertices ox oy res h rows row col =
      [⟨ox + col * res, oy + ((rows : ℚ) - row - 1) * res, 0⟩,
       ⟨ox + col * res + 9/10 * res, oy + ((rows : ℚ) - row - 1) * res, 0⟩,
       ⟨ox + col * res + 9/10 * res, oy + ((rows : ℚ) - row - 1) * res + 9/10 * res, 0⟩,
       ⟨ox + col * res, oy + ((rows : ℚ) - row - 1) * res + 9/10 * res, 0⟩,
       ⟨ox + col * res, oy + ((rows : ℚ) - row - 1) * res, h⟩,
       ⟨ox + col * res + 9/10 * res, oy + ((rows : ℚ) - row - 1) * res, h⟩,
       ⟨ox + col * res + 9/10 * res, oy + ((rows : ℚ) - row - 1) * res + 9/10 * res, h⟩,
       ⟨ox + col * res, oy + ((rows : ℚ) - row - 1) * res + 9/10 * res, h⟩]) ∧
    ((cube_vertices ox oy res h rows 0 0).getD 0 ⟨0, 0, 0⟩).y
      = oy + ((rows : ℚ) - 1) * res := by
  have hcast : (((rows : Int) - (row : Int) - 1 : Int) : ℚ)
      = (rows : ℚ) - row - 1 := by push_cast; ring
  constructor
  · simp only [cube_vertices, hcast, mul_comm res (9/10)]
  · simp only [cube_vertices, List.getD_cons_zero]
    push_cast
    ring

/-- Witness for C3: a 3-row grid with origin (0,0), resolution 1, wall
height 2; the cuboid for cell (0,0) starts its y-range at 0 + (3 - 1) * 1. -/
theorem C3_wall_placement_witness :
    ((0 : ℚ) < 1) ∧
    ((cube_vertices 0 0 1 2 3 0 0).getD 0 ⟨0, 0, 0⟩).y = 0 + ((3 : ℚ) - 1) * 1 :=
  ⟨by norm_num, (C3_wall_placement 0 0 1 2 3 1 2 (by norm_num)).2⟩

/-- Lengths accumulated by the wall loop: 8 vertices and 12 triangles per
boundary cell, for any starting vertex count. -/
theorem wall_loop_lengths (ox oy res h : ℚ) (rows : Nat)
    (cells : List (Nat × Nat)) :
    ∀ v0 : Nat,
      (wall_loop ox oy res h rows cells v0).1.length = 8 * cells.length ∧
      (wall_loop ox oy res h rows cells v0).2.length = 12 * cells.length := by
  induction cells with
  | nil => intro v0; simp [wall_loop]
  | cons hd tl ih =>
    intro v0
    obtain ⟨row, col⟩ := hd
    have h1 := (ih (v0 + 8)).1
    have h2 := (ih (v0 + 8)).2
    simp only [wall_loop, List.length_append, List.length_cons, h1, h2,
      cube_vertices, cube_faces]
    constructor <;> simp <;> omega

/-- Vertex and triangle counts of the assembled mesh: 8B + 4 vertices and
12B + 2 triangles where B is the number of boundary cells. -/
theorem convert_to_3d_counts (res ox oy ot ft h : ℚ) (img : Nat → Nat → ℚ)
    (rows cols : Nat) :
    (convert_to_3d res ox oy ot ft h img rows cols).vertices.length
      = 8 * (wall_pixels (load_and_process_map ot ft img) rows cols).length + 4 ∧
    (convert_to_3d res ox oy ot ft h img rows cols).faces.length
      = 12 * (wall_pixels (load_and_process_map ot ft img) rows cols).length + 2 := by
  obtain ⟨hv, hf⟩ := wall_loop_lengths ox oy res h rows
    (wall_pixels (load_and_process_map ot ft img) rows cols) 0
  simp only [convert_to_3d, create_wall_mesh]
  split_ifs with hemp
  · rw [List.isEmpty_iff] at hemp
    rw [hemp] at hv
    simp only [List.length_nil] at hv
    have hlen : (wall_pixels (load_and_process_map ot ft img) rows cols).length = 0 := by
      omega
    constructor
    · simp [create_floor_mesh, hlen]
    · simp [create_floor_mesh, hlen]
  · constructor
    · simp [mesh_concat, create_floor_mesh, hv]
    · simp [mesh_concat, create_floor_mesh, hf]

/-- C4: with B boundary cells, the wall synthesizer emits exactly 8B
vertices and 12B triangles, the floor contributes 4 vertices and 2
triangles, and the assembled mesh (no deduplication is modelled) has
exactly 8B + 4 vertices and 12B + 2 triangles. -/
theorem C4_geometry_counts (res ox oy ot ft h : ℚ) (img : Nat → Nat → ℚ)
    (rows cols : Nat) :
    (wall_loop ox oy res h rows
        (wall_pixels (load_and_process_map ot ft img) rows cols) 0).1.length
      = 8 * (wall_pixels (load_and_process_map ot ft img) rows cols).length ∧
    (wall_loop ox oy res h rows
        (wall_pixels (load_and_process_map ot ft img) rows cols) 0).2.length
      = 12 * (wall_pixels (load_and_process_map ot ft img) rows cols).length ∧
    (create_floor_mesh ox oy res rows cols).vertices.length = 4 ∧
    (create_floor_mesh ox oy res rows cols).faces.length = 2 ∧
    (convert_to_3d res ox oy ot ft h img rows cols).vertices.length
      = 8 * (wall_pixels (load_and_process_map ot ft img) rows cols).length + 4 ∧
    (convert_to_3d res ox oy ot ft h img rows cols).faces.length
      = 12 * (wall_pixels (load_and_process_map ot ft img) rows cols).length + 2 :=
  ⟨(wall_loop_lengths ox oy res h rows _ 0).1,
   (wall_loop_lengths ox oy res h rows _ 0).2,
   rfl, rfl,
   (convert_to_3d_counts res ox oy ot ft h img rows cols).1,
   (convert_to_3d_counts res ox oy ot ft h img rows cols).2⟩

unseal Rat.mul Rat.inv Rat.sub Rat.add in
/-- C5 counterexample: for the cuboid of boundary cell (0,0) in a 1-row
grid with origin (0,0), resolution 1 and wall height 1, the bottom face's
first triangle (vertex indices 0,1,2) has normal (0, 0, 81/100), which
points toward +Z — not toward -Z as the claim requires for the bottom
face. -/
theorem C5_winding_counterexample :
    triNormal (cube_vertices 0 0 1 1 1 0 0) ((cube_faces 0).getD 0 (0, 0, 0))
      = ⟨0, 0, 81/100⟩ ∧
    ¬ (triNormal (cube_vertices 0 0 1 1 1 0 0)
        ((cube_faces 0).getD 0 (0, 0, 0))).z < 0 :=
  ⟨by decide, by decide⟩

/-- C5 amended: each face of the emitted cuboid is wound so that its
triangles' normals point into the cuboid, not outward: with cs = 0.9*res
the twelve triangle normals are, in the source's face order (bottom, top,
front, back, left, right, two triangles each): (0,0,cs^2), (0,0,-cs^2),
(0,cs*h,0), (0,-cs*h,0), (cs*h,0,0) and (-cs*h,0,0); for res > 0 and
h > 0 these are nonzero and point toward the cuboid's interior (bottom
face toward +Z, top toward -Z, sides inward).  The code relies on the
external trimesh fix_normals pass to repair this consistent inversion. -/
theorem C5_inward_normals (ox oy res h : ℚ) (rows row col : Nat)
    (hres : 0 < res) (hh : 0 < h) :
    ((cube_faces 0).map (triNormal (cube_vertices ox oy res h rows row col))
      = [⟨0, 0, (9/10*res)^2⟩, ⟨0, 0, (9/10*res)^2⟩,
         ⟨0, 0, -(9/10*res)^2⟩, ⟨0, 0, -(9/10*res)^2⟩,
         ⟨0, 9/10*res*h, 0⟩, ⟨0, 9/10*res*h, 0⟩,
         ⟨0, -(9/10*res*h), 0⟩, ⟨0, -(9/10*res*h), 0⟩,
         ⟨9/10*res*h, 0, 0⟩, ⟨9/10*res*h, 0, 0⟩,
         ⟨-(9/10*res*h), 0, 0⟩, ⟨-(9/10*res*h), 0, 0⟩]) ∧
    0 < (9/10*res)^2 ∧ 0 < 9/10*res*h := by
  refine ⟨?_, by positivity, by positivity⟩
  simp [cube_faces, cube_vertices, triNormal, cross, vsub, List.getD, Vec3.mk.injEq]
  ring_nf
  tauto

unseal Rat.mul Rat.inv Rat.sub Rat.add in
/-- Witness for C5 amended, at origin (0,0), resolution 1, height 1 and
cell (0,0) of a 1-row grid. -/
theorem C5_inward_normals_witness :
    (0 : ℚ) < 1 ∧
    (cube_faces 0).map (triNormal (cube_vertices 0 0 1 1 1 0 0))
      = [⟨0, 0, (9/10*1)^2⟩, ⟨0, 0, (9/10*1)^2⟩,
         ⟨0, 0, -(9/10*1)^2⟩, ⟨0, 0, -(9/10*1)^2⟩,
         ⟨0, 9/10*1*1, 0⟩, ⟨0, 9/10*1*1, 0⟩,
         ⟨0, -(9/10*1*1), 0⟩, ⟨0, -(9/10*1*1), 0⟩,
         ⟨9/10*1*1, 0, 0⟩, ⟨9/10*1*1, 0, 0⟩,
         ⟨-(9/10*1*1), 0, 0⟩, ⟨-(9/10*1*1), 0, 0⟩] :=
  ⟨by norm_num,
   (C5_inward_normals 0 0 1 1 1 0 0 (by norm_num) (by norm_num)).1⟩

/-! ## Degenerate and error-handling claims -/

/-- If every in-range cell of the binary grid is free, there is no boundary
cell at all. -/
theorem wall_pixels_eq_nil (g : Nat → Nat → Bool) (rows cols : Nat)
    (hfree : ∀ r c, r < rows → c < cols → g r c = false) :
    wall_pixels g rows cols = [] := by
  rw [wall_pixels, List.eq_nil_iff_forall_not_mem]
  rintro ⟨r, c⟩ hmem
  rw [List.mem_flatMap] at hmem
  obtain ⟨r', hr', hmem⟩ := hmem
  rw [List.mem_filterMap] at hmem
  obtain ⟨c', hc', hsome⟩ := hmem
  rw [List.mem_range] at hr'
  rw [List.mem_range] at hc'
  by_cases hw : wall_edges g rows cols r' c' = true
  · rw [wall_edges, Bool.and_eq_true] at hw
    rw [hfree r' c' hr' hc'] at hw
    exact Bool.false_ne_true hw.1
  · rw [if_neg hw] at hsome
    exact Option.noConfusion hsome

/-- C6: when every cell classifies Free, the boundary-cell list is empty,
create_wall_mesh signals the absence of walls by returning none (the
source's return None, distinct from raising an error), and the assembled
mesh is exactly the floor quad: 4 vertices and 2 triangles. -/
theorem C6_all_free_floor_only (res ox oy ot ft h : ℚ) (img : Nat → Nat → ℚ)
    (rows cols : Nat)
    (hfree : ∀ r c, r < rows → c < cols → classifyCell ot ft (img r c) = false) :
    wall_pixels (load_and_process_map ot ft img) rows cols = [] ∧
    create_wall_mesh ox oy res h (load_and_process_map ot ft img) rows cols = none ∧
    convert_to_3d res ox oy ot ft h img rows cols
      = create_floor_mesh ox oy res rows cols ∧
    (create_floor_mesh ox oy res rows cols).vertices.length = 4 ∧
    (create_floor_mesh ox oy res rows cols).faces.length = 2 := by
  have hnil : wall_pixels (load_and_process_map ot ft img) rows cols = [] :=
    wall_pixels_eq_nil _ rows cols fun r c hr hc => hfree r c hr hc
  have hwall : create_wall_mesh ox oy res h
      (load_and_process_map ot ft img) rows cols = none := by
    rw [create_wall_mesh, hnil]
    rfl
  refine ⟨hnil, hwall, ?_, rfl, rfl⟩
  simp only [convert_to_3d, hwall]

unseal Rat.mul Rat.inv Rat.sub Rat.add in
/-- Witness for C6: a 2x2 grid of intensity 1 everywhere (all Free under the
default thresholds) converts to the bare floor quad. -/
theorem C6_all_free_floor_only_witness :
    convert_to_3d 1 0 0 (45/100) (196/1000) 1 (fun _ _ => 1) 2 2
      = create_floor_mesh 0 0 1 2 2 :=
  (C6_all_free_floor_only 1 0 0 (45/100) (196/1000) 1 (fun _ _ => 1) 2 2
    (fun _ _ _ _ => by
      show classifyCell (45/100) (196/1000) 1 = false
      decide)).2.2.1

/-- C8: the floor synthesizer emits exactly one quad at Z = 0 covering
[ox, ox + cols*res] x [oy, oy + rows*res], split into 2 triangles whose
normals point straight up (+Z) when res, rows, cols are positive, and this
floor is a suffix of the assembled mesh for every input, with or without
wall geometry. -/
theorem C8_floor_quad (res ox oy ot ft h : ℚ) (img : Nat → Nat → ℚ)
    (rows cols : Nat) (hres : 0 < res) (hrows : 0 < rows) (hcols : 0 < cols) :
    (create_floor_mesh ox oy res rows cols).vertices
      = [⟨ox, oy, 0⟩, ⟨ox + cols * res, oy, 0⟩,
         ⟨ox + cols * res, oy + rows * res, 0⟩, ⟨ox, oy + rows * res, 0⟩] ∧
    (create_floor_mesh ox oy res rows cols).faces = [(0, 1, 2), (0, 2, 3)] ∧
    (∀ t ∈ (create_floor_mesh ox oy res rows cols).faces,
      (triNormal (create_floor_mesh ox oy res rows cols).vertices t).x = 0 ∧
      (triNormal (create_floor_mesh ox oy res rows cols).vertices t).y = 0 ∧
      0 < (triNormal (create_floor_mesh ox oy res rows cols).vertices t).z) ∧
    (∃ vs fs, (convert_to_3d res ox oy ot ft h img rows cols).vertices
        = vs ++ (create_floor_mesh ox oy res rows cols).vertices ∧
      (convert_to_3d res ox oy ot ft h img rows cols).faces
        = fs ++ (create_floor_mesh ox oy res rows cols).faces.map
            (offsetTri vs.length)) := by
  have hc : (0 : ℚ) < cols := by exact_mod_cast hcols
  have hr : (0 : ℚ) < rows := by exact_mod_cast hrows
  refine ⟨rfl, rfl, ?_, ?_⟩
  · intro t ht
    simp only [create_floor_mesh, List.mem_cons, List.not_mem_nil, or_false] at ht
    have hpos : (0 : ℚ) < (cols : ℚ) * res ^ 2 * (rows : ℚ) :=
      mul_pos (mul_pos hc (pow_pos hres 2)) hr
    rcases ht with rfl | rfl <;>
      refine ⟨?_, ?_, ?_⟩ <;>
      simp [create_floor_mesh, triNormal, cross, vsub, List.getD] <;>
      nlinarith [hpos]
  · simp only [convert_to_3d, create_wall_mesh]
    split_ifs with hemp
    · refine ⟨[], [], by simp, ?_⟩
      simp [offsetTri, create_floor_mesh]
    · exact ⟨_, _, rfl, rfl⟩

/-- Witness for C8 on a 1x1 grid with resolution 1. -/
theorem C8_floor_quad_witness :
    (0 : ℚ) < 1 ∧ (0 : Nat) < 1 ∧
    (create_floor_mesh 0 0 1 1 1).faces = [(0, 1, 2), (0, 2, 3)] :=
  ⟨by norm_num, by norm_num,
   (C8_floor_quad 1 0 0 (45/100) (196/1000) 1 (fun _ _ => 0) 1 1
     (by norm_num) (by norm_num) (by norm_num)).2.1⟩

unseal Rat.mul Rat.inv Rat.sub Rat.add in
/-- C9 counterexample: a metadata record with resolution -1 (≤ 0) is not
rejected; no InvalidMetadata error exists in the code, and the conversion
runs the whole pipeline, classifying the 1x1 all-dark grid as occupied and
synthesizing one wall cuboid plus the floor: 12 vertices and 14 triangles,
instead of failing fast. -/
theorem C9_counterexample :
    (-1 : ℚ) ≤ 0 ∧
    (convert_to_3d (-1) 0 0 (45/100) (196/1000) 1 (fun _ _ => 0) 1 1).vertices.length
      = 12 ∧
    (convert_to_3d (-1) 0 0 (45/100) (196/1000) 1 (fun _ _ => 0) 1 1).faces.length
      = 14 :=
  ⟨by norm_num, by decide, by decide⟩

/-- C9 amended: the conversion performs no metadata validation at all: for
any resolution, including resolution ≤ 0, classification, boundary
extraction and geometry synthesis all proceed and produce a complete mesh
of 8B + 4 vertices and 12B + 2 triangles. -/
theorem C9_no_validation (res ox oy ot ft h : ℚ) (img : Nat → Nat → ℚ)
    (rows cols : Nat) (hres : res ≤ 0) :
    (convert_to_3d res ox oy ot ft h img rows cols).vertices.length
      = 8 * (wall_pixels (load_and_process_map ot ft img) rows cols).length + 4 ∧
    (convert_to_3d res ox oy ot ft h img rows cols).faces.length
      = 12 * (wall_pixels (load_and_process_map ot ft img) rows cols).length + 2 :=
  convert_to_3d_counts res ox oy ot ft h img rows cols

unseal Rat.mul Rat.inv Rat.sub Rat.add in
/-- Witness for C9 amended at resolution -2. -/
theorem C9_no_validation_witness :
    (-2 : ℚ) ≤ 0 ∧
    (convert_to_3d (-2) 0 0 (45/100) (196/1000) 1 (fun _ _ => 0) 1 1).faces.length
      = 12 * (wall_pixels (load_and_process_map (45/100) (196/1000)
          (fun _ _ => 0)) 1 1).length + 2 :=
  ⟨by norm_num,
   (C9_no_validation (-2) 0 0 (45/100) (196/1000) 1 (fun _ _ => 0) 1 1
     (by norm_num)).2⟩

end MapTo3D
